import Mathlib

/-!
Shallow embedding of `src/greprepos/greprepos.py` (snim2/grep-repos).

The program audits every repository of a GitHub organisation and writes one
CSV row per repository.  The remote service is modelled as read-only
snapshots stored in the `Repo`, `Org`, `RepoEntry` and `OrgListing`
structures; Python exceptions are modelled with `Except PyErr`; Python
`None` is modelled with `Option`.
-/

namespace GrepRepos

/-- Python errors that the program raises or catches.
`assertionError` models `AssertionError`, `rateLimit` models
`RateLimitExceededException` and `keyError` models `KeyError`.
`UnknownObjectException` never crosses a modelled function boundary (it is
always caught where it can occur), so it appears as the `notFound` cases of
`ContentsResult` and `Fetch` instead of as a `PyErr`. -/
inductive PyErr where
  | assertionError (msg : String)
  | rateLimit
  | keyError (key : String)
deriving DecidableEq

deriving instance DecidableEq for Except

/-- Outcome of `repo.get_contents(filename)`: the remote raises
`UnknownObjectException` (`notFound`), returns a single `ContentFile`
(`file`), or returns a list of files for a directory (`directory`). -/
inductive ContentsResult where
  | notFound
  | file (s : String)
  | directory
deriving DecidableEq

/-- Outcome of a remote lookup such as `repo.get_license()` or
`repo.get_teams()`: a value, an `UnknownObjectException`, or some other
exception `e` (for example a rate-limit error) that the caller does not
catch. -/
inductive Fetch (α : Type) where
  | found (a : α)
  | notFound
  | err (e : PyErr)
deriving DecidableEq

/-- Scalar values stored in a report row, per `RepoDataType` in the source:
`bool`, `int`, `str` or `datetime` (kept as its textual form here). -/
inductive Value where
  | vBool (b : Bool)
  | vInt (n : Int)
  | vStr (s : String)
  | vDate (d : String)
deriving DecidableEq

/-- One report row: a Python dict in insertion order with unique keys. -/
abbrev Row := List (String × Value)

/-- The enum `RelationshipToOrgDefault` from the source. -/
inductive RelationshipToOrgDefault where
  | LINKS_TO
  | MATCHES
  | MISSING
  | NO_DEFAULT
  | UNRELATED
deriving DecidableEq

/-- The string payload of each enum member, as in the source. -/
def RelationshipToOrgDefault.value : RelationshipToOrgDefault → String
  | .LINKS_TO => "links to"
  | .MATCHES => "matches"
  | .MISSING => "missing"
  | .NO_DEFAULT => "no organisation default"
  | .UNRELATED => "unrelated"

/-- An open pull request, with the fields read by the source. -/
structure Pull where
  title : String
  userLogin : String
deriving DecidableEq

/-- Snapshot of one repository together with the remote responses that
`_get_repo_data` reads from it.  `priv` models the `private` attribute
(`private` is a Lean keyword); `contents` models `repo.get_contents`;
`orgName` models `repo.organization.name` (`none` for a `None` name). -/
structure Repo where
  name : String
  archived : Bool
  priv : Bool
  fork : Bool
  createdAt : String
  pushedAt : String
  defaultBranch : String
  commitsOnDefault : Nat
  lastCommitDate : String
  branches : List String
  license : Fetch Unit
  teams : Fetch (List String)
  topics : List String
  forksCount : Nat
  openIssuesCount : Nat
  pulls : List Pull
  orgName : Option String
  contents : String → ContentsResult

/-- An organisation, with `getRepo name` modelling `org.get_repo(name)`
(`none` when the call raises `UnknownObjectException`). -/
structure Org where
  getRepo : String → Option Repo

/-- One entry of the paged repository listing.  `repoAt k` is the remote
snapshot observed by the k-th invocation of `_get_repo_data` for this
repository (the remote may change between the first attempt and the
post-sleep retry). -/
structure RepoEntry where
  repoAt : Nat → Repo

/-- The paged listing returned by `org.get_repos()`, with its reported
`totalCount`. -/
structure OrgListing where
  repos : List RepoEntry
  totalCount : Nat

/-- URL of GitHub instance (module constant `_BASE_URL`). -/
def _BASE_URL : String := "https://github.com"

/-- Expected filename for codes of conduct (`_CODE_OF_CONDUCT`). -/
def _CODE_OF_CONDUCT : String := "CODE_OF_CONDUCT.md"

/-- Expected filename for contributing instructions (`_CONTRIBUTING`). -/
def _CONTRIBUTING : String := "CONTRIBUTING.md"

/-- Name of the repository that holds organisation defaults
(`_ORG_DEFAULT_REPO`). -/
def _ORG_DEFAULT_REPO : String := ".github"

/-- Title of the Renovate bot configuration PRs (`_RENOVATE_CONFIGURE_PR`). -/
def _RENOVATE_CONFIGURE_PR : String := "Configure Renovate"

/-- Username of the bot that generates Renovate PRs (`_RENOVATE_USER`). -/
def _RENOVATE_USER : String := "renovate[bot]"

/-- Safety margin added to the rate-limit wait time (`_TIME_DELTA`). -/
def _TIME_DELTA : Int := 10

/-- Expected Travis CI config file (`_TRAVIS_CI_CONFIG`). -/
def _TRAVIS_CI_CONFIG : String := ".travis.yml"

/-- Expected file which describes why a repository is private
(`_WHY_PRIVATE`). -/
def _WHY_PRIVATE : String := "WHY_PRIVATE.md"

/-- Does the character list `h` start with the character list `n`? -/
def strHasLead : List Char → List Char → Bool
  | [], _ => true
  | _ :: _, [] => false
  | n :: ns, c :: hs => n == c && strHasLead ns hs

/-- Does the character list `h` contain the character list `n` as a
contiguous segment? -/
def strHasSub (needle : List Char) : List Char → Bool
  | [] => needle.isEmpty
  | c :: hs => strHasLead needle (c :: hs) || strHasSub needle hs

/-- The Python expression `needle in hay` on strings: substring
containment. -/
def pyIn (needle hay : String) : Bool := strHasSub needle.data hay.data

/-- Code-point comparison of strings, as Python compares `str` values. -/
def strLtAux : List Char → List Char → Bool
  | [], [] => false
  | [], _ :: _ => true
  | _ :: _, [] => false
  | x :: xs, y :: ys =>
    if x.toNat < y.toNat then true
    else if y.toNat < x.toNat then false
    else strLtAux xs ys

/-- Python `a < b` on strings. -/
def strLt (a b : String) : Bool := strLtAux a.data b.data

/-- Python `a <= b` on strings. -/
def strLe (a b : String) : Bool := !(strLt b a)

/-- Insert a string into an already sorted list of strings. -/
def insertSorted (x : String) : List String → List String
  | [] => [x]
  | y :: ys => if strLe x y then x :: y :: ys else y :: insertSorted x ys

/-- Python `sorted(...)` on a list of strings. -/
def sortStrings : List String → List String
  | [] => []
  | x :: xs => insertSorted x (sortStrings xs)

/-- Remove duplicates, keeping the first occurrence of each string. -/
def removeDups : List String → List String
  | [] => []
  | x :: xs => x :: removeDups (xs.filter (fun y => !(y == x)))
termination_by l => l.length
decreasing_by
  simp only [List.length_cons]
  exact Nat.lt_succ_of_le (List.length_filter_le _ _)

/-- Python `sorted(set(xs).symmetric_difference(ys))`. -/
def symmDiffSorted (xs ys : List String) : List String :=
  sortStrings (removeDups
    ((xs.filter (fun a => !(ys.contains a))) ++ (ys.filter (fun a => !(xs.contains a)))))

/-- Embedding of `_get_file_contents` (source lines 224-238): `None` when
`get_contents` raises `UnknownObjectException`; the decoded content for a
file; an uncaught `AssertionError` when the path is a directory (the
`assert isinstance(content_file, ContentFile)` on line 234 fails and the
`except` clause catches only `UnknownObjectException`). -/
def _get_file_contents (repo : Repo) (filename : String) : Except PyErr (Option String) :=
  match repo.contents filename with
  | .notFound => .ok none
  | .file s => .ok (some s)
  | .directory =>
    .error (.assertionError (filename ++ " does not seem to be a file. Is it a directory?"))

/-- Embedding of `_get_default_repo` (source lines 213-221): `None` when
`org.get_repo(_ORG_DEFAULT_REPO)` raises `UnknownObjectException`. -/
def _get_default_repo (org : Org) : Option Repo :=
  org.getRepo _ORG_DEFAULT_REPO

/-- Embedding of the default-content prelude of `_get_github_data`
(source lines 89-91): the default content for `filename` is `None` when
the organisation has no defaults repository, and otherwise the result of
`_get_file_contents` on the defaults repository. -/
def getDefaultFileContents (org : Org) (filename : String) : Except PyErr (Option String) :=
  match _get_default_repo org with
  | none => .ok none
  | some repo => _get_file_contents repo filename

/-- Embedding of `_get_relationship_to_org_default` (source lines
189-210): assert that the organisation name is a string, fetch the file
from the repository, then classify against the default content by the
if/elif chain of lines 200-209. -/
def _get_relationship_to_org_default (default : Option String) (filename : String)
    (repo : Repo) : Except PyErr RelationshipToOrgDefault :=
  match repo.orgName with
  | none => .error (.assertionError (repo.name ++ " does not have a related organisation."))
  | some orgName =>
    match _get_file_contents repo filename with
    | .error e => .error e
    | .ok repoFile =>
      match default, repoFile with
      | none, _ => .ok .NO_DEFAULT
      | some _, none => .ok .MISSING
      | some d, some rf =>
        if d = rf then .ok .MATCHES
        else if pyIn (String.intercalate "/"
            [_BASE_URL, orgName, _ORG_DEFAULT_REPO, "blob", "main", filename]) rf then
          .ok .LINKS_TO
        else .ok .UNRELATED

/-- Embedding of source lines 147-151: `has license file` is `True` when
`repo.get_license()` succeeds, `False` when it raises
`UnknownObjectException`, and any other exception propagates. -/
def licenseFieldOf : Fetch Unit → Except PyErr Bool
  | .found _ => .ok true
  | .notFound => .ok false
  | .err e => .error e

/-- Embedding of source lines 164-169: the team names when
`repo.get_teams()` succeeds, the initial empty list when it raises
`UnknownObjectException`, and any other exception propagates. -/
def teamsFieldOf : Fetch (List String) → Except PyErr (List String)
  | .found ts => .ok ts
  | .notFound => .ok []
  | .err e => .error e

/-- Embedding of source lines 158-161: `missing why private` starts as
`False` and the `_WHY_PRIVATE` lookup runs only for private
repositories. -/
def whyPrivateField (repo : Repo) : Except PyErr Bool :=
  if repo.priv then
    match _get_file_contents repo _WHY_PRIVATE with
    | .error e => .error e
    | .ok c => .ok c.isNone
  else .ok false

/-- Embedding of the pull-request scan of source lines 174-183, returning
`(has_automated_pr, has_configure_renovate_pr)`.  Both flags start
`False`; the loop breaks early once nothing further can change. -/
def scanPulls (botUser : Option String) :
    List Pull → Bool → Bool → Bool × Bool
  | [], hasAutomated, hasConfigure => (hasAutomated, hasConfigure)
  | pull :: rest, hasAutomated, hasConfigure =>
    let hasConfigure2 :=
      if pull.title == _RENOVATE_CONFIGURE_PR && pull.userLogin == _RENOVATE_USER then true
      else hasConfigure
    let hasAutomated2 :=
      match botUser with
      | some bot => if pull.userLogin == bot then true else hasAutomated
      | none => hasAutomated
    if (hasConfigure2 && hasAutomated2) || (hasConfigure2 && botUser.isNone) then
      (hasAutomated2, hasConfigure2)
    else scanPulls botUser rest hasAutomated2 hasConfigure2

/-- The report-row dict built by `_get_repo_data`, keys in the source's
insertion order (lines 131-186), with the already computed values of the
fallible lookups passed in. -/
def buildRow (repo : Repo) (hasLicense : Bool) (contribRel cocRel : RelationshipToOrgDefault)
    (missingWhyPrivate : Bool) (travis : Option String) (teams : List String)
    (hasConfigureRenovatePr hasAutomatedPr : Bool) : Row :=
  let hasMasterBranch := repo.branches.contains "master"
  let hasMainBranch := repo.branches.contains "main"
  [("name", .vStr repo.name),
   ("is archived", .vBool repo.archived),
   ("is private", .vBool repo.priv),
   ("is fork", .vBool repo.fork),
   ("created at", .vDate repo.createdAt),
   ("pushed at", .vDate repo.pushedAt),
   ("default branch", .vStr repo.defaultBranch),
   ("commits on default branch", .vInt (repo.commitsOnDefault : Int)),
   ("last commit to default branch", .vDate repo.lastCommitDate),
   ("has master branch but no main", .vBool (hasMasterBranch && !hasMainBranch)),
   ("has license file", .vBool hasLicense),
   ("contributing relates to org default", .vStr contribRel.value),
   ("coc relates to org default", .vStr cocRel.value),
   ("missing why private", .vBool missingWhyPrivate),
   ("uses Travis CI", .vBool travis.isSome),
   ("topics", .vStr (String.intercalate ", " repo.topics)),
   ("teams", .vStr (String.intercalate ", " teams)),
   ("forks count", .vInt (repo.forksCount : Int)),
   ("open issues", .vInt (repo.openIssuesCount : Int)),
   ("open prs", .vInt (repo.pulls.length : Int)),
   ("has unmerged " ++ _RENOVATE_CONFIGURE_PR ++ " PR", .vBool hasConfigureRenovatePr),
   ("has unmerged PR(s) from org bot", .vBool hasAutomatedPr)]

/-- Embedding of `_get_repo_data` (source lines 124-186).  The fallible
remote lookups run in the source's order (license, contributing
classification, code-of-conduct classification, why-private lookup,
Travis lookup, teams lookup); the first uncaught exception propagates. -/
def _get_repo_data (repo : Repo) (defaultContrib defaultCoc botUser : Option String) :
    Except PyErr Row :=
  match licenseFieldOf repo.license with
  | .error e => .error e
  | .ok hasLicense =>
    match _get_relationship_to_org_default defaultContrib _CONTRIBUTING repo with
    | .error e => .error e
    | .ok contribRel =>
      match _get_relationship_to_org_default defaultCoc _CODE_OF_CONDUCT repo with
      | .error e => .error e
      | .ok cocRel =>
        match whyPrivateField repo with
        | .error e => .error e
        | .ok missingWhyPrivate =>
          match _get_file_contents repo _TRAVIS_CI_CONFIG with
          | .error e => .error e
          | .ok travis =>
            match teamsFieldOf repo.teams with
            | .error e => .error e
            | .ok teams =>
              let scan := scanPulls botUser repo.pulls false false
              .ok (buildRow repo hasLicense contribRel cocRel missingWhyPrivate travis teams
                scan.2 scan.1)

/-- The sleep duration computed on a rate-limit error (source line 107):
`reset_timestamp - now + _TIME_DELTA`, in seconds. -/
def sleepTime (resetTimestamp now : Int) : Int :=
  resetTimestamp - now + _TIME_DELTA

/-- Embedding of the try/except block of `_get_github_data` (source lines
101-111): call `_get_repo_data` once; on `RateLimitExceededException`,
sleep and call it exactly once more, propagating whatever the second call
raises; any other exception of the first call propagates immediately.
`attempt k` is the outcome of the k-th invocation; the second component
counts the invocations made. -/
def fetchRepoDataWithRetry (attempt : Nat → Except PyErr Row) : Except PyErr Row × Nat :=
  match attempt 0 with
  | .ok repoData => (.ok repoData, 1)
  | .error .rateLimit => (attempt 1, 2)
  | .error e => (.error e, 1)

/-- The outcome of the k-th `_get_repo_data` invocation for a listing
entry, given the org-default contents and the bot username. -/
def repoAttempt (defaultContrib defaultCoc botUser : Option String) (e : RepoEntry)
    (k : Nat) : Except PyErr Row :=
  _get_repo_data (e.repoAt k) defaultContrib defaultCoc botUser

/-- Python dict assignment `data[key] = value`: replace the value in
place when the key exists, append otherwise. -/
def dictInsert (d : List (String × Row)) (key : String) (v : Row) : List (String × Row) :=
  match d with
  | [] => [(key, v)]
  | (k0, v0) :: rest =>
    if k0 == key then (k0, v) :: rest else (k0, v0) :: dictInsert rest key v

/-- Embedding of the repository loop of `_get_github_data` (source lines
94-111): archived repositories are skipped and counted; every other
repository contributes one dict entry via the rate-limit retry wrapper;
an uncaught exception aborts the whole loop.  Returns the data dict and
the number of archived repositories. -/
def processRepos (defaultContrib defaultCoc botUser : Option String) :
    List RepoEntry → List (String × Row) → Nat → Except PyErr (List (String × Row) × Nat)
  | [], data, numArchived => .ok (data, numArchived)
  | e :: rest, data, numArchived =>
    if (e.repoAt 0).archived then
      processRepos defaultContrib defaultCoc botUser rest data (numArchived + 1)
    else
      match (fetchRepoDataWithRetry (repoAttempt defaultContrib defaultCoc botUser e)).1 with
      | .ok row =>
        processRepos defaultContrib defaultCoc botUser rest
          (dictInsert data (e.repoAt 0).name row) numArchived
      | .error err2 => .error err2

/-- Embedding of `_get_github_data` after its default-content prelude
(source lines 92-121): run the repository loop, then assert that
`num_archived + len(data.keys())` equals the listing's `totalCount`,
raising an `AssertionError` otherwise. -/
def _get_github_data (defaultContrib defaultCoc botUser : Option String)
    (listing : OrgListing) : Except PyErr (List (String × Row)) :=
  match processRepos defaultContrib defaultCoc botUser listing.repos [] 0 with
  | .error e => .error e
  | .ok (data, numArchived) =>
    let totalReposSeen := numArchived + data.length
    if totalReposSeen = listing.totalCount then .ok data
    else
      .error (.assertionError ("Got " ++ toString totalReposSeen ++
        " repos but expected " ++ toString listing.totalCount ++ "."))

/-- Python dict lookup `row[key]` as an option. -/
def lookupField (row : Row) (key : String) : Option Value :=
  match row with
  | [] => none
  | (k, v) :: rest => if k == key then some v else lookupField rest key

/-- The declared CSV header list of `_write_csv_file` (source lines
244-267), in its declared order. -/
def headers : List String :=
  ["name",
   "is archived",
   "is private",
   "is fork",
   "created at",
   "pushed at",
   "default branch",
   "commits on default branch",
   "last commit to default branch",
   "open issues",
   "open prs",
   "has master branch but no main",
   "has license file",
   "contributing relates to org default",
   "coc relates to org default",
   "missing why private",
   "has unmerged " ++ _RENOVATE_CONFIGURE_PR ++ " PR",
   "has unmerged PR(s) from org bot",
   "uses Travis CI",
   "forks count",
   "teams",
   "topics"]

/-- The diagnostic of the header assertion in `_write_csv_file` (source
line 275), with the sorted symmetric difference between the declared
headers and the actual first-row keys. -/
def csvMismatchMsg (actualHeaders : List String) : String :=
  "You found a bug! Data does not have expected keys. This was the diff:" ++
    toString (symmDiffSorted headers actualHeaders)

/-- One output row: `[repo[column] for column in headers]` (source line
280); a missing key raises `KeyError`. -/
def rowValues (row : Row) : List String → Except PyErr (List Value)
  | [] => .ok []
  | col :: rest =>
    match lookupField row col with
    | none => .error (.keyError col)
    | some v =>
      match rowValues row rest with
      | .error e => .error e
      | .ok vs => .ok (v :: vs)

/-- The writer loop of `_write_csv_file` (source lines 279-281): one list
of values per repository, in dict order. -/
def writeRows : List (String × Row) → Except PyErr (List (List Value))
  | [] => .ok []
  | (_, row) :: rest =>
    match rowValues row headers with
    | .error e => .error e
    | .ok vals =>
      match writeRows rest with
      | .error e => .error e
      | .ok out => .ok (vals :: out)

/-- Embedding of `_write_csv_file` (source lines 241-282): when the data
is non-empty, assert that the sorted key list of the FIRST row equals the
sorted header list (source lines 268-275), then emit the value rows.  The
result is the list of written data rows (the constant header row is
implicit). -/
def _write_csv_file (githubData : List (String × Row)) : Except PyErr (List (List Value)) :=
  match githubData with
  | [] => writeRows githubData
  | (_, firstRow) :: _ =>
    let actualHeaders := firstRow.map Prod.fst
    if sortStrings actualHeaders = sortStrings headers then writeRows githubData
    else .error (.assertionError (csvMismatchMsg actualHeaders))

/-- A benign repository snapshot used as a concrete evaluation point: not
archived, public, with an organisation, no license, no teams, and no files. -/
def baseRepo : Repo where
  name := "demo"
  archived := false
  priv := false
  fork := false
  createdAt := "2020-01-01T00:00:00Z"
  pushedAt := "2020-01-02T00:00:00Z"
  defaultBranch := "main"
  commitsOnDefault := 3
  lastCommitDate := "2020-01-02T00:00:00Z"
  branches := ["main"]
  license := .notFound
  teams := .notFound
  topics := []
  forksCount := 0
  openIssuesCount := 0
  pulls := []
  orgName := some "acme"
  contents := fun _ => .notFound

/-- A repository whose every file lookup yields the same content. -/
def repoWithFile (s : String) : Repo :=
  { baseRepo with contents := fun _ => .file s }

/-- A repository whose every content lookup resolves to a directory. -/
def dirRepo : Repo :=
  { baseRepo with contents := fun _ => .directory }

/-- A repository with no related organisation name. -/
def noOrgRepo : Repo :=
  { baseRepo with orgName := none }

/-- A repository file body that links to the organisation default. -/
def linkingContent : String :=
  "see https://github.com/acme/.github/blob/main/CONTRIBUTING.md for details"

/-- An organisation with no repositories at all, in particular no
defaults repository. -/
def emptyOrg : Org where
  getRepo := fun _ => none

/-- A repository whose license lookup raises the rate-limit error, so that
`_get_repo_data` on it raises `RateLimitExceededException`. -/
def rateLimitedRepo : Repo :=
  { baseRepo with license := .err .rateLimit }

/-- A listing entry that is rate-limited on every fetch attempt. -/
def rateLimitedEntry : RepoEntry where
  repoAt := fun _ => rateLimitedRepo

/-- A fetch that is rate-limited on the first attempt and succeeds on the
retry. -/
def retryOkAttempt : Nat → Except PyErr Row :=
  fun k => if k = 0 then .error .rateLimit else .ok []

/-- A report row whose key list is exactly the declared header list. -/
def fullRow : Row := headers.map (fun h => (h, Value.vBool true))

/-- A report row with every declared header key plus one extra key. -/
def extraKeyRow : Row := fullRow ++ [("extra key", Value.vBool true)]

/-- Collected data whose first row matches the headers and whose second
row has an extra key. -/
def mixedData : List (String × Row) := [("first", fullRow), ("second", extraKeyRow)]

/-- Appending `String.mk` values concatenates their character lists. -/
theorem mkAppend (l m : List Char) : String.mk l ++ String.mk m = String.mk (l ++ m) := rfl

/-- String append is associative. -/
theorem strAppendAssoc (a b c : String) : (a ++ b) ++ c = a ++ (b ++ c) := by
  cases a; cases b; cases c
  rw [mkAppend, mkAppend, mkAppend, mkAppend, List.append_assoc]

/-- Folding the literal middle part of the constructed default-file URL. -/
theorem mergeUrlMiddle (f : String) :
    "/" ++ (".github" ++ ("/" ++ ("blob" ++ ("/" ++ ("main" ++ ("/" ++ f)))))) =
      "/.github/blob/main/" ++ f := by
  cases f
  rfl

/-- The URL constructed by `"/".join(...)` on source line 206 is the base
URL, the organisation name, and the defaults-repo path around the
filename. -/
theorem urlEq (o f : String) :
    String.intercalate "/" [_BASE_URL, o, _ORG_DEFAULT_REPO, "blob", "main", f]
      = "https://github.com/" ++ (o ++ ("/.github/blob/main/" ++ f)) := by
  show ((((_BASE_URL ++ "/" ++ o) ++ "/" ++ ".github") ++ "/" ++ "blob") ++ "/" ++ "main")
      ++ "/" ++ f
    = "https://github.com/" ++ (o ++ ("/.github/blob/main/" ++ f))
  simp only [strAppendAssoc]
  rw [mergeUrlMiddle]
  rw [← strAppendAssoc]
  rfl

/-- Characterisation of `strHasLead`: the haystack starts with the
needle. -/
theorem strHasLead_iff (n h : List Char) : strHasLead n h = true ↔ ∃ t, h = n ++ t := by
  induction n generalizing h with
  | nil =>
    simp [strHasLead]
  | cons x xs ih =>
    cases h with
    | nil => simp [strHasLead]
    | cons y ys =>
      simp only [strHasLead, Bool.and_eq_true, beq_iff_eq, ih, List.cons_append]
      constructor
      · rintro ⟨rfl, t, rfl⟩
        exact ⟨t, rfl⟩
      · rintro ⟨t, ht⟩
        cases ht
        exact ⟨rfl, t, rfl⟩

/-- Characterisation of `strHasSub`: the needle occurs as a contiguous
segment of the haystack. -/
theorem strHasSub_iff (n h : List Char) :
    strHasSub n h = true ↔ ∃ s t, h = s ++ (n ++ t) := by
  induction h with
  | nil =>
    cases n with
    | nil => simp [strHasSub, List.isEmpty]
    | cons c cs => simp [strHasSub, List.isEmpty]
  | cons c hs ih =>
    simp only [strHasSub, Bool.or_eq_true, strHasLead_iff, ih]
    constructor
    · rintro (⟨t, ht⟩ | ⟨s, t, ht⟩)
      · exact ⟨[], t, by simp [ht]⟩
      · exact ⟨c :: s, t, by simp [ht]⟩
    · rintro ⟨s, t, ht⟩
      cases s with
      | nil => exact Or.inl ⟨t, by simpa using ht⟩
      | cons a s2 =>
        right
        rw [List.cons_append] at ht
        cases ht
        exact ⟨s2, t, rfl⟩

/-- Characterisation of `pyIn` (Python `needle in hay`): plain substring
containment on the character lists, with no further parsing. -/
theorem pyIn_iff (needle hay : String) :
    pyIn needle hay = true ↔ ∃ s t, hay.data = s ++ (needle.data ++ t) :=
  strHasSub_iff needle.data hay.data

/-- A successful `_get_repo_data` run decomposes into successes of every
fallible lookup, and the produced row is `buildRow` of their results. -/
theorem getRepoData_ok_shape (repo : Repo) (dc dcoc bot : Option String) (row : Row)
    (h : _get_repo_data repo dc dcoc bot = .ok row) :
    ∃ hasLic contribRel cocRel whyP travis tms,
      licenseFieldOf repo.license = .ok hasLic
      ∧ _get_relationship_to_org_default dc _CONTRIBUTING repo = .ok contribRel
      ∧ _get_relationship_to_org_default dcoc _CODE_OF_CONDUCT repo = .ok cocRel
      ∧ whyPrivateField repo = .ok whyP
      ∧ _get_file_contents repo _TRAVIS_CI_CONFIG = .ok travis
      ∧ teamsFieldOf repo.teams = .ok tms
      ∧ row = buildRow repo hasLic contribRel cocRel whyP travis tms
          (scanPulls bot repo.pulls false false).2 (scanPulls bot repo.pulls false false).1 := by
  unfold _get_repo_data at h
  cases h1 : licenseFieldOf repo.license <;> rw [h1] at h
  case error e => exact absurd h (by simp)
  case ok hasLic =>
  cases h2 : _get_relationship_to_org_default dc _CONTRIBUTING repo <;> rw [h2] at h
  case error e => exact absurd h (by simp)
  case ok contribRel =>
  cases h3 : _get_relationship_to_org_default dcoc _CODE_OF_CONDUCT repo <;> rw [h3] at h
  case error e => exact absurd h (by simp)
  case ok cocRel =>
  cases h4 : whyPrivateField repo <;> rw [h4] at h
  case error e => exact absurd h (by simp)
  case ok whyP =>
  cases h5 : _get_file_contents repo _TRAVIS_CI_CONFIG <;> rw [h5] at h
  case error e => exact absurd h (by simp)
  case ok travis =>
  cases h6 : teamsFieldOf repo.teams <;> rw [h6] at h
  case error e => exact absurd h (by simp)
  case ok tms =>
  simp only [Except.ok.injEq] at h
  exact ⟨hasLic, contribRel, cocRel, whyP, travis, tms, rfl, rfl, rfl, rfl, rfl, rfl, h.symm⟩

/-- Reading the `has license file` field of a built row. -/
theorem lookup_buildRow_license (repo : Repo) (hl : Bool) (cr kr : RelationshipToOrgDefault)
    (wp : Bool) (tv : Option String) (tm : List String) (c a : Bool) :
    lookupField (buildRow repo hl cr kr wp tv tm c a) "has license file" =
      some (.vBool hl) := rfl

/-- Reading the `teams` field of a built row. -/
theorem lookup_buildRow_teams (repo : Repo) (hl : Bool) (cr kr : RelationshipToOrgDefault)
    (wp : Bool) (tv : Option String) (tm : List String) (c a : Bool) :
    lookupField (buildRow repo hl cr kr wp tv tm c a) "teams" =
      some (.vStr (String.intercalate ", " tm)) := rfl

/-- Reading the `missing why private` field of a built row. -/
theorem lookup_buildRow_whyPrivate (repo : Repo) (hl : Bool) (cr kr : RelationshipToOrgDefault)
    (wp : Bool) (tv : Option String) (tm : List String) (c a : Bool) :
    lookupField (buildRow repo hl cr kr wp tv tm c a) "missing why private" =
      some (.vBool wp) := rfl

/-- A completed repository loop has counted exactly the archived entries
of the listing. -/
theorem processRepos_archived (dc dcoc bot : Option String) (rs : List RepoEntry) :
    ∀ (data0 : List (String × Row)) (na0 : Nat) (data : List (String × Row)) (na : Nat),
      processRepos dc dcoc bot rs data0 na0 = .ok (data, na) →
      na = na0 + (rs.filter (fun e => (e.repoAt 0).archived)).length := by
  induction rs with
  | nil =>
    intro data0 na0 data na h
    simp only [processRepos, Except.ok.injEq, Prod.mk.injEq] at h
    simp [← h.2]
  | cons e rest ih =>
    intro data0 na0 data na h
    by_cases ha : (e.repoAt 0).archived = true
    · rw [processRepos, if_pos ha] at h
      have := ih data0 (na0 + 1) data na h
      simp only [List.filter_cons, ha, if_true, List.length_cons]
      omega
    · rw [processRepos, if_neg ha] at h
      simp only [List.filter_cons, ha]
      cases hf : (fetchRepoDataWithRetry (repoAttempt dc dcoc bot e)).1 <;> rw [hf] at h
      · exact absurd h (by simp)
      · simpa using ih _ na0 data na h

/-- The value extraction for one output row can only fail with a
`KeyError`. -/
theorem rowValues_error_keyError (row : Row) (cols : List String) (e : PyErr)
    (h : rowValues row cols = .error e) : ∃ c, e = .keyError c := by
  induction cols with
  | nil => exact absurd h (by simp [rowValues])
  | cons col rest ih =>
    rw [rowValues] at h
    cases hl : lookupField row col <;> rw [hl] at h
    · simp only [Except.error.injEq] at h
      exact ⟨col, h.symm⟩
    · cases hr : rowValues row rest <;> rw [hr] at h
      case error e2 =>
        simp only [Except.error.injEq] at h
        cases h
        exact ih hr
      case ok vs => exact absurd h (by simp)

/-- The writer loop can only fail with a `KeyError`. -/
theorem writeRows_error_keyError (d : List (String × Row)) (e : PyErr)
    (h : writeRows d = .error e) : ∃ c, e = .keyError c := by
  induction d with
  | nil => exact absurd h (by simp [writeRows])
  | cons p rest ih =>
    obtain ⟨nm, row⟩ := p
    rw [writeRows] at h
    cases hv : rowValues row headers <;> rw [hv] at h
    case error e2 =>
      simp only [Except.error.injEq] at h
      cases h
      exact rowValues_error_keyError row headers _ hv
    case ok vals =>
      cases hr : writeRows rest <;> rw [hr] at h
      case error e2 =>
        simp only [Except.error.injEq] at h
        cases h
        exact ih hr
      case ok out => exact absurd h (by simp)

/-- C1: given an organisation name and a successfully fetched repository
file content `R`, the relationship classifier decides in order:
`NO_DEFAULT` whenever the default content is absent; otherwise `MISSING`
when `R` is absent; otherwise `MATCHES` when the default equals `R`
exactly; otherwise `LINKS_TO` when `R` contains the constructed link
substring; otherwise `UNRELATED`. -/
theorem c1_classifier_decision_order (repo : Repo) (o filename : String) (R : Option String)
    (horg : repo.orgName = some o) (hfile : _get_file_contents repo filename = .ok R) :
    (_get_relationship_to_org_default none filename repo = .ok .NO_DEFAULT)
    ∧ (∀ X, R = none →
        _get_relationship_to_org_default (some X) filename repo = .ok .MISSING)
    ∧ (∀ X, R = some X →
        _get_relationship_to_org_default (some X) filename repo = .ok .MATCHES)
    ∧ (∀ X Y, R = some Y → X ≠ Y →
        pyIn (String.intercalate "/"
          [_BASE_URL, o, _ORG_DEFAULT_REPO, "blob", "main", filename]) Y = true →
        _get_relationship_to_org_default (some X) filename repo = .ok .LINKS_TO)
    ∧ (∀ X Y, R = some Y → X ≠ Y →
        pyIn (String.intercalate "/"
          [_BASE_URL, o, _ORG_DEFAULT_REPO, "blob", "main", filename]) Y = false →
        _get_relationship_to_org_default (some X) filename repo = .ok .UNRELATED) := by
  refine ⟨?_, ?_, ?_, ?_, ?_⟩
  · simp [_get_relationship_to_org_default, horg, hfile]
  · rintro X rfl
    simp [_get_relationship_to_org_default, horg, hfile]
  · rintro X rfl
    simp [_get_relationship_to_org_default, horg, hfile]
  · rintro X Y rfl hne hin
    simp [_get_relationship_to_org_default, horg, hfile, hne, hin]
  · rintro X Y rfl hne hin
    simp [_get_relationship_to_org_default, horg, hfile, hne, hin]

/-- Witness for C1: on a repository whose file content is `"hello"`, a
matching default is classified `MATCHES`. -/
theorem c1_classifier_decision_order_witness :
    _get_relationship_to_org_default (some "hello") _CONTRIBUTING (repoWithFile "hello") =
      .ok .MATCHES :=
  (c1_classifier_decision_order (repoWithFile "hello") "acme" _CONTRIBUTING
    (some "hello") rfl rfl).2.2.1 "hello" rfl

/-- C4: on a rate-limit error the computed sleep duration is the reset
timestamp minus the current time plus the fixed 10-second safety margin,
so a reset 30 seconds ahead yields a 40-second wait. -/
theorem c4_rate_limit_wait (resetTimestamp now : Int) :
    sleepTime resetTimestamp now = resetTimestamp - now + 10
    ∧ (resetTimestamp = now + 30 → sleepTime resetTimestamp now = 40) := by
  constructor
  · rfl
  · intro h
    subst h
    simp only [sleepTime, _TIME_DELTA]
    omega

/-- Witness for C4: with the clock at 10 and the reset at 40 (30 seconds
ahead), the computed wait is 40 seconds. -/
theorem c4_rate_limit_wait_witness : sleepTime 40 10 = 40 :=
  (c4_rate_limit_wait 40 10).2 (by decide)

/-- C5: a rate-limited fetch is retried exactly once, so the wrapped
fetch runs exactly twice when the retry succeeds; if the retry is
rate-limited again, that second error propagates out of the repository
loop and is fatal to the run. -/
theorem c5_rate_limit_retry :
    (∀ attempt row, attempt 0 = .error .rateLimit → attempt 1 = .ok row →
      fetchRepoDataWithRetry attempt = (.ok row, 2))
    ∧ (∀ attempt e, attempt 0 = .error .rateLimit → attempt 1 = .error e →
      fetchRepoDataWithRetry attempt = (.error e, 2))
    ∧ (∀ dc dcoc bot entry rest data na, (entry.repoAt 0).archived = false →
        _get_repo_data (entry.repoAt 0) dc dcoc bot = .error .rateLimit →
        _get_repo_data (entry.repoAt 1) dc dcoc bot = .error .rateLimit →
        processRepos dc dcoc bot (entry :: rest) data na = .error .rateLimit) := by
  refine ⟨?_, ?_, ?_⟩
  · intro attempt row h0 h1
    simp [fetchRepoDataWithRetry, h0, h1]
  · intro attempt e h0 h1
    simp [fetchRepoDataWithRetry, h0, h1]
  · intro dc dcoc bot entry rest data na ha h0 h1
    rw [processRepos, if_neg (by simp [ha])]
    simp [fetchRepoDataWithRetry, repoAttempt, h0, h1]

/-- Witness for C5: a first-attempt rate limit followed by a successful
retry produces the retried row with exactly two fetch invocations, and a
doubly rate-limited repository aborts the loop with the rate-limit
error. -/
theorem c5_rate_limit_retry_witness :
    fetchRepoDataWithRetry retryOkAttempt = (.ok [], 2)
    ∧ processRepos none none none [rateLimitedEntry] [] 0 = .error .rateLimit :=
  ⟨c5_rate_limit_retry.1 retryOkAttempt [] rfl rfl,
   c5_rate_limit_retry.2.2 none none none rateLimitedEntry [] [] 0 rfl rfl rfl⟩

/-- C7: the file-content lookup returns `None` (distinct from empty
content) when the defaults repository or the named file is absent, and
raises an uncaught `AssertionError` when the named path resolves to a
directory. -/
theorem c7_file_contents :
    (∀ org filename, org.getRepo _ORG_DEFAULT_REPO = none →
      getDefaultFileContents org filename = .ok none)
    ∧ (∀ repo filename, repo.contents filename = .notFound →
      _get_file_contents repo filename = .ok none)
    ∧ (∀ repo filename s, repo.contents filename = .file s →
      _get_file_contents repo filename = .ok (some s) ∧ some s ≠ (none : Option String))
    ∧ (∀ repo filename, repo.contents filename = .directory →
      _get_file_contents repo filename =
        .error (.assertionError
          (filename ++ " does not seem to be a file. Is it a directory?"))) := by
  refine ⟨?_, ?_, ?_, ?_⟩
  · intro org filename h
    simp [getDefaultFileContents, _get_default_repo, h]
  · intro repo filename h
    simp [_get_file_contents, h]
  · intro repo filename s h
    simp [_get_file_contents, h]
  · intro repo filename h
    simp [_get_file_contents, h]

/-- Witness for C7: a missing defaults repository yields `None`, a
missing file yields `None`, an empty file yields `Some ""`, and a
directory raises the assertion error. -/
theorem c7_file_contents_witness :
    getDefaultFileContents emptyOrg _CONTRIBUTING = .ok none
    ∧ _get_file_contents baseRepo "README.md" = .ok none
    ∧ _get_file_contents (repoWithFile "") _WHY_PRIVATE = .ok (some "")
    ∧ _get_file_contents dirRepo _CONTRIBUTING =
        .error (.assertionError
          "CONTRIBUTING.md does not seem to be a file. Is it a directory?") :=
  ⟨c7_file_contents.1 emptyOrg _CONTRIBUTING rfl,
   c7_file_contents.2.1 baseRepo "README.md" rfl,
   (c7_file_contents.2.2.1 (repoWithFile "") _WHY_PRIVATE "" rfl).1,
   c7_file_contents.2.2.2 dirRepo _CONTRIBUTING rfl⟩

/-- C10: for a repository without an organisation name, the relationship
classifier raises an `AssertionError` for every default content and every
filename, including the `NO_DEFAULT` and `MISSING` situations. -/
theorem c10_org_name_assert (default : Option String) (filename : String) (repo : Repo)
    (h : repo.orgName = none) :
    _get_relationship_to_org_default default filename repo =
      .error (.assertionError (repo.name ++ " does not have a related organisation.")) := by
  rw [_get_relationship_to_org_default, h]

/-- Witness for C10: a repository without an organisation raises the
assertion even in the `NO_DEFAULT` situation (no default content). -/
theorem c10_org_name_assert_witness :
    _get_relationship_to_org_default none _CONTRIBUTING noOrgRepo =
      .error (.assertionError "demo does not have a related organisation.") :=
  c10_org_name_assert none _CONTRIBUTING noOrgRepo rfl

/-- C6: the constructed URL is
`<base-url>/<org>/<defaults-repo>/blob/main/<filename>` with base URL
`https://github.com` and defaults repository `.github`; the `LINKS_TO`
classification holds exactly when that string occurs in the repository
file content, where occurrence is plain substring containment of the
character lists and not any link-syntax parse. -/
theorem c6_links_to_substring :
    (∀ o f, String.intercalate "/" [_BASE_URL, o, _ORG_DEFAULT_REPO, "blob", "main", f]
      = "https://github.com/" ++ (o ++ ("/.github/blob/main/" ++ f)))
    ∧ (∀ needle hay, pyIn needle hay = true ↔ ∃ s t, hay.data = s ++ (needle.data ++ t))
    ∧ (∀ repo o d filename rf, repo.orgName = some o →
        _get_file_contents repo filename = .ok (some rf) →
        (_get_relationship_to_org_default (some d) filename repo = .ok .LINKS_TO ↔
          (d ≠ rf ∧
            pyIn ("https://github.com/" ++ (o ++ ("/.github/blob/main/" ++ filename)))
              rf = true))) := by
  refine ⟨urlEq, pyIn_iff, ?_⟩
  intro repo o d filename rf horg hfile
  simp only [_get_relationship_to_org_default, horg, hfile]
  rw [urlEq]
  split_ifs with h1 h2
  · simp [h1]
  · simp [h1, h2]
  · simp [h1, h2]

/-- Witness for C6: content that merely mentions the constructed URL in
running text is classified `LINKS_TO` against a differing default. -/
theorem c6_links_to_substring_witness :
    _get_relationship_to_org_default (some "default text") _CONTRIBUTING
      (repoWithFile linkingContent) = .ok .LINKS_TO := by
  have h := c6_links_to_substring.2.2 (repoWithFile linkingContent) "acme" "default text"
    _CONTRIBUTING linkingContent rfl rfl
  exact h.mpr ⟨by decide, by decide⟩

/-- C8: a not-found license lookup is recorded as `has license file =
False` and a not-found team-list lookup as an empty team list, with
neither error propagating out of `_get_repo_data`. -/
theorem c8_not_found_recovery :
    (licenseFieldOf .notFound = .ok false)
    ∧ (teamsFieldOf .notFound = .ok [])
    ∧ (∀ repo dc dcoc bot row, repo.license = .notFound → repo.teams = .notFound →
        _get_repo_data repo dc dcoc bot = .ok row →
        lookupField row "has license file" = some (.vBool false)
        ∧ lookupField row "teams" = some (.vStr "")) := by
  refine ⟨rfl, rfl, ?_⟩
  intro repo dc dcoc bot row hlic htms h
  obtain ⟨hasLic, contribRel, cocRel, whyP, travis, tms, h1, _, _, _, _, h6, hrow⟩ :=
    getRepoData_ok_shape repo dc dcoc bot row h
  rw [hlic] at h1
  rw [htms] at h6
  simp only [licenseFieldOf, Except.ok.injEq] at h1
  simp only [teamsFieldOf, Except.ok.injEq] at h6
  subst hrow
  rw [lookup_buildRow_license, lookup_buildRow_teams, ← h1, ← h6]
  exact ⟨rfl, rfl⟩

/-- Witness for C8: on a repository with a not-found license and
not-found teams, the produced row records `False` and the empty string. -/
theorem c8_not_found_recovery_witness :
    lookupField (buildRow baseRepo false .NO_DEFAULT .NO_DEFAULT false none [] false false)
        "has license file" = some (.vBool false)
    ∧ lookupField (buildRow baseRepo false .NO_DEFAULT .NO_DEFAULT false none [] false false)
        "teams" = some (.vStr "") :=
  c8_not_found_recovery.2.2 baseRepo none none none
    (buildRow baseRepo false .NO_DEFAULT .NO_DEFAULT false none [] false false) rfl rfl rfl

/-- C9: the `missing why private` field is `False` for every non-private
repository, whatever its contents (the `WHY_PRIVATE.md` lookup is not
performed); the field can only be `True` when the repository is private
and the file is absent. -/
theorem c9_missing_why_private :
    (∀ repo, repo.priv = false → whyPrivateField repo = .ok false)
    ∧ (∀ repo, whyPrivateField repo = .ok true →
        repo.priv = true ∧ _get_file_contents repo _WHY_PRIVATE = .ok none)
    ∧ (∀ repo dc dcoc bot row, repo.priv = false →
        _get_repo_data repo dc dcoc bot = .ok row →
        lookupField row "missing why private" = some (.vBool false)) := by
  refine ⟨?_, ?_, ?_⟩
  · intro repo hp
    simp [whyPrivateField, hp]
  · intro repo h
    rw [whyPrivateField] at h
    by_cases hp : repo.priv
    · refine ⟨hp, ?_⟩
      rw [if_pos hp] at h
      cases hf : _get_file_contents repo _WHY_PRIVATE <;> rw [hf] at h
      · exact absurd h (by simp)
      · rename_i c
        simp only [Except.ok.injEq, Option.isNone_iff_eq_none] at h
        rw [h]
    · rw [if_neg hp] at h
      exact absurd h (by simp)
  · intro repo dc dcoc bot row hp h
    obtain ⟨hasLic, contribRel, cocRel, whyP, travis, tms, _, _, _, h4, _, _, hrow⟩ :=
      getRepoData_ok_shape repo dc dcoc bot row h
    have hw : whyPrivateField repo = .ok false := by simp [whyPrivateField, hp]
    rw [hw] at h4
    simp only [Except.ok.injEq] at h4
    subst hrow
    rw [lookup_buildRow_whyPrivate, h4]

/-- Witness for C9: a non-private repository whose every content lookup
is a directory still yields `missing why private = False` without any
error, and the row of a plain non-private repository records `False`. -/
theorem c9_missing_why_private_witness :
    whyPrivateField dirRepo = .ok false
    ∧ lookupField (buildRow baseRepo false .NO_DEFAULT .NO_DEFAULT false none [] false false)
        "missing why private" = some (.vBool false) :=
  ⟨c9_missing_why_private.1 dirRepo rfl,
   c9_missing_why_private.2.2 baseRepo none none none
     (buildRow baseRepo false .NO_DEFAULT .NO_DEFAULT false none [] false false) rfl rfl⟩

/-- C3: when the collector returns, the number of produced rows plus the
number of skipped archived repositories equals the listing's total count;
when that equality fails after the loop, the collector raises the
assertion error instead of returning data. -/
theorem c3_count_consistency :
    (∀ dc dcoc bot listing data, _get_github_data dc dcoc bot listing = .ok data →
      (listing.repos.filter (fun e => (e.repoAt 0).archived)).length + data.length
        = listing.totalCount)
    ∧ (∀ dc dcoc bot listing data na,
        processRepos dc dcoc bot listing.repos [] 0 = .ok (data, na) →
        na + data.length ≠ listing.totalCount →
        _get_github_data dc dcoc bot listing = .error (.assertionError
          ("Got " ++ toString (na + data.length) ++ " repos but expected "
            ++ toString listing.totalCount ++ "."))) := by
  constructor
  · intro dc dcoc bot listing data h
    simp only [_get_github_data] at h
    cases hp : processRepos dc dcoc bot listing.repos [] 0 <;> simp only [hp] at h
    · exact absurd h (by simp)
    · rename_i p
      obtain ⟨data0, na0⟩ := p
      have harch := processRepos_archived dc dcoc bot listing.repos [] 0 data0 na0 hp
      by_cases hc : na0 + data0.length = listing.totalCount
      · rw [if_pos hc] at h
        simp only [Except.ok.injEq] at h
        subst h
        omega
      · rw [if_neg hc] at h
        exact absurd h (by simp)
  · intro dc dcoc bot listing data na hp hne
    simp only [_get_github_data, hp]
    rw [if_neg hne]

/-- Witness for C3: an empty listing with a consistent total count of 0
satisfies the equality, and an empty listing with a fabricated total of 5
aborts with the assertion error. -/
theorem c3_count_consistency_witness :
    ((([] : List RepoEntry).filter (fun e => (e.repoAt 0).archived)).length
        + ([] : List (String × Row)).length = 0)
    ∧ _get_github_data none none none ⟨[], 5⟩ =
        .error (.assertionError "Got 0 repos but expected 5.") :=
  ⟨c3_count_consistency.1 none none none ⟨[], 0⟩ [] rfl,
   c3_count_consistency.2 none none none ⟨[], 5⟩ [] 0 rfl (by decide)⟩

/-- C2 counterexample: the reporter does not verify every produced row.
With a first row whose keys exactly match the headers and a second row
carrying an extra key, the header check passes and the file is written
(the extra key silently dropped) even though the second row's key set
differs from the declared header set. -/
theorem c2_reporter_every_row_counterexample :
    (_write_csv_file mixedData).isOk = true
    ∧ sortStrings (extraKeyRow.map Prod.fst) ≠ sortStrings headers := by
  constructor
  · rfl
  · decide

/-- C2 (amended): before writing, the reporter verifies that the FIRST
produced row's key set matches the declared header set, aborting with a
diagnostic listing the symmetric difference on mismatch; rows after the
first are not key-checked, and once the first row passes, no
assertion-error abort can occur during writing. -/
theorem c2_reporter_first_row_check :
    (∀ nm fr rest, sortStrings (fr.map Prod.fst) ≠ sortStrings headers →
      _write_csv_file ((nm, fr) :: rest) =
        .error (.assertionError (csvMismatchMsg (fr.map Prod.fst))))
    ∧ (∀ nm fr rest, sortStrings (fr.map Prod.fst) = sortStrings headers →
        ∀ msg, _write_csv_file ((nm, fr) :: rest) ≠ .error (.assertionError msg)) := by
  constructor
  · intro nm fr rest hne
    simp only [_write_csv_file]
    rw [if_neg hne]
  · intro nm fr rest heq msg
    simp only [_write_csv_file]
    rw [if_pos heq]
    intro hcon
    obtain ⟨c, hc⟩ := writeRows_error_keyError _ _ hcon
    exact PyErr.noConfusion hc

/-- Witness for the amended C2: an empty first row fails the check and
the reporter aborts with the symmetric-difference diagnostic. -/
theorem c2_reporter_first_row_check_witness :
    _write_csv_file [("empty", ([] : Row))] =
      .error (.assertionError (csvMismatchMsg ([] : List String))) :=
  c2_reporter_first_row_check.1 "empty" [] [] (by decide)

end GrepRepos
